import Mathlib

/-!
Verification of `gamepad_mapper.py` (USB Gamepad Mapper).

Shallow embedding of the program: the configuration dictionary, the
config load/save logic, the key-action dispatcher (`press_key`), the
event-translation loop of `run_gamepad_loop`, and the discovery loop of
`start`.  Python dictionaries are modelled as association lists with
Python's update semantics (update in place if the key is present,
append otherwise); axis values are rationals; the external keyboard
injector and the config store are modelled by explicit traces and an
explicit file state, following the spec's component boundaries.
-/

namespace GamepadMapper

/-- A raw pygame event, as consumed by `run_gamepad_loop`
(JOYBUTTONDOWN / JOYBUTTONUP / JOYAXISMOTION). -/
inductive RawEvent where
  | buttonDown (id : Nat)
  | buttonUp (id : Nat)
  | axisMotion (axis : Nat) (value : ℚ)
deriving DecidableEq

/-- The configuration dictionary held in `self.config`.  The Python object
is a JSON dict; only these four keys are ever read, each through
`.get(key, default)`, so each field is an `Option` (`none` = key absent,
as in the empty dict returned on a malformed file). -/
structure PyConfig where
  button_mappings : Option (List (String × String))
  trigger_threshold : Option ℚ
  polling_rate : Option Int
  auto_restart : Option Bool
deriving DecidableEq

/-- Python `d[k] = v` on a dict modelled as an association list:
update the first binding of `k` in place, append if absent. -/
def dictInsert {α : Type} (m : List (String × α)) (k : String) (v : α) :
    List (String × α) :=
  match m with
  | [] => [(k, v)]
  | (k0, v0) :: rest =>
      if k0 = k then (k, v) :: rest else (k0, v0) :: dictInsert rest k v

/-- Python `k in d`. -/
def dictMem {α : Type} (m : List (String × α)) (k : String) : Bool :=
  m.any fun p => p.1 == k

/-- Python `d.get(k)` / `d[k]`. -/
def dictFind {α : Type} (m : List (String × α)) (k : String) : Option α :=
  (m.find? fun p => p.1 == k).map Prod.snd

/-- The `default_config` dict built by `load_config` when the file is
absent (lines 34-52 of the source). -/
def default_config : PyConfig :=
  { button_mappings := some
      [("A", "space"), ("B", "escape"), ("X", "return"), ("Y", "tab"),
       ("START", "f11"), ("SELECT", "f12"), ("LEFT_TRIGGER", "ctrl"),
       ("RIGHT_TRIGGER", "shift"), ("DPAD_UP", "up"), ("DPAD_DOWN", "down"),
       ("DPAD_LEFT", "left"), ("DPAD_RIGHT", "right")]
    trigger_threshold := some (1/2)
    polling_rate := some 60
    auto_restart := some true }

/-- The empty dict `{}` returned by `load_config` on a malformed file. -/
def empty_config : PyConfig :=
  { button_mappings := none, trigger_threshold := none,
    polling_rate := none, auto_restart := none }

/-- State of the config file.  Per spec section 1 the config store
(file system plus JSON codec) is an external collaborator, so it is
modelled at the structured-value level: either the file is absent, or
its contents fail to parse, or it holds a parsed config value. -/
inductive ConfigFile where
  | absent
  | malformed
  | stored (c : PyConfig)
deriving DecidableEq

/-- Model of `save_config` (lines 63-69): writes the config to the file
(the write is modelled as succeeding; a failure would only be printed). -/
def save_config (c : PyConfig) (_f : ConfigFile) : ConfigFile :=
  ConfigFile.stored c

/-- Model of `load_config` (lines 30-61): if the file does not exist, build
`default_config`, save it, and return it; otherwise parse it, and on a
parse error print a message and return `{}`.  Result: the returned
config, the resulting file state, and whether an error was reported. -/
def load_config : ConfigFile → PyConfig × ConfigFile × Bool
  | ConfigFile.absent =>
      (default_config, save_config default_config ConfigFile.absent, false)
  | ConfigFile.malformed => (empty_config, ConfigFile.malformed, true)
  | ConfigFile.stored c => (c, ConfigFile.stored c, false)

/-- Model of `get_button_name` (lines 195-210): fixed table from raw button id to
logical button name. -/
def get_button_name (button_id : Nat) : Option String :=
  match button_id with
  | 0 => some "A"
  | 1 => some "B"
  | 2 => some "X"
  | 3 => some "Y"
  | 4 => some "LEFT_TRIGGER"
  | 5 => some "RIGHT_TRIGGER"
  | 6 => some "SELECT"
  | 7 => some "START"
  | 8 => some "LEFT_STICK"
  | 9 => some "RIGHT_STICK"
  | _ => none

/-- A pynput key value: either a named special key (`Key.enter`, ...) or a
literal character/string. -/
inductive PyKey where
  | special (name : String)
  | char (s : String)
deriving DecidableEq

/-- The `key_mapping` dict inside `get_key_from_string` (lines 92-113). -/
def key_mapping_table : List (String × PyKey) :=
  [("space", PyKey.char " "), ("return", PyKey.special "enter"),
   ("escape", PyKey.special "esc"), ("tab", PyKey.special "tab"),
   ("f11", PyKey.special "f11"), ("f12", PyKey.special "f12"),
   ("ctrl", PyKey.special "ctrl"), ("shift", PyKey.special "shift"),
   ("alt", PyKey.special "alt"), ("up", PyKey.special "up"),
   ("down", PyKey.special "down"), ("left", PyKey.special "left"),
   ("right", PyKey.special "right"), ("home", PyKey.special "home"),
   ("end", PyKey.special "end"), ("page_up", PyKey.special "page_up"),
   ("page_down", PyKey.special "page_down"),
   ("insert", PyKey.special "insert"), ("delete", PyKey.special "delete"),
   ("backspace", PyKey.special "backspace")]

/-- Model of `get_key_from_string` (lines 90-115): `key_mapping.get(s, s)`. -/
def get_key_from_string (key_string : String) : PyKey :=
  match dictFind key_mapping_table key_string with
  | some k => k
  | none => PyKey.char key_string

/-- One call attempted on the keyboard controller inside `press_key`. -/
inductive KbCall where
  | pressCall (k : PyKey)
  | sleepHold
  | releaseCall (k : PyKey)
deriving DecidableEq

/-- Model of `press_key` (lines 117-125): the sequence of keyboard-controller calls
it attempts.  The body is `try: press(key); sleep(0.05); release(key)
except: print`, so when the press raises (`press_fails = true`) control
jumps to the handler and neither the sleep nor the release is executed. -/
def press_key_calls (press_fails : Bool) (key_string : String) : List KbCall :=
  let key := get_key_from_string key_string
  if press_fails then [KbCall.pressCall key]
  else [KbCall.pressCall key, KbCall.sleepHold, KbCall.releaseCall key]

/-- Model of `handle_button_press` (lines 127-132): look up the button name in
`config.get("button_mappings", {})`; if present, dispatch the mapped
action via `press_key`.  Returns the dispatch trace as
(button name, action string) pairs, one per `press_key` call. -/
def handle_button_press (cfg : PyConfig) (button_name : String) :
    List (String × String) :=
  match dictFind (cfg.button_mappings.getD []) button_name with
  | some key_mapping => [(button_name, key_mapping)]
  | none => []

/-- The per-session mutable state of `run_gamepad_loop`:
`button_states` (line 149) and `trigger_states` (line 150, a dict with
keys "left" and "right", here two booleans). -/
structure LoopState where
  button_states : List (String × Bool)
  left_trigger : Bool
  right_trigger : Bool
deriving DecidableEq

/-- The fresh state built at the top of `run_gamepad_loop`. -/
def freshLoopState : LoopState :=
  { button_states := [], left_trigger := false, right_trigger := false }

/-- The event dispatch of `run_gamepad_loop` (lines 152-191) for a single
raw event: returns the updated state and the dispatch trace. -/
def process_event (cfg : PyConfig) (s : LoopState) :
    RawEvent → LoopState × List (String × String)
  | RawEvent.buttonDown id =>
      match get_button_name id with
      | some button_name =>
          if dictMem s.button_states button_name then (s, [])
          else
            ({ s with button_states :=
                 dictInsert s.button_states button_name true },
             handle_button_press cfg button_name)
      | none => (s, [])
  | RawEvent.buttonUp id =>
      match get_button_name id with
      | some button_name =>
          ({ s with button_states :=
               dictInsert s.button_states button_name false }, [])
      | none => (s, [])
  | RawEvent.axisMotion axis v =>
      if axis = 2 ∨ axis = 3 then
        let threshold := cfg.trigger_threshold.getD (1/2)
        if |v| > threshold then
          if axis = 2 then
            if s.left_trigger then (s, [])
            else ({ s with left_trigger := true },
                  handle_button_press cfg "LEFT_TRIGGER")
          else
            if s.right_trigger then (s, [])
            else ({ s with right_trigger := true },
                  handle_button_press cfg "RIGHT_TRIGGER")
        else
          if axis = 2 then ({ s with left_trigger := false }, [])
          else ({ s with right_trigger := false }, [])
      else if axis = 0 ∨ axis = 1 then
        if |v| > 1/2 then
          if axis = 0 then
            if v > 1/2 then (s, handle_button_press cfg "DPAD_RIGHT")
            else if v < -(1/2) then (s, handle_button_press cfg "DPAD_LEFT")
            else (s, [])
          else
            if v > 1/2 then (s, handle_button_press cfg "DPAD_DOWN")
            else if v < -(1/2) then (s, handle_button_press cfg "DPAD_UP")
            else (s, [])
        else (s, [])
      else (s, [])

/-- Process a batch of events in arrival order, concatenating traces. -/
def process_events (cfg : PyConfig) (s : LoopState) :
    List RawEvent → LoopState × List (String × String)
  | [] => (s, [])
  | e :: es =>
      let r1 := process_event cfg s e
      let r2 := process_events cfg r1.1 es
      (r2.1, r1.2 ++ r2.2)

/-- The per-iteration sleep at line 193:
`time.sleep(1.0 / self.config.get("polling_rate", 60))`.
Python float true division raises `ZeroDivisionError` on a zero divisor,
modelled as `none`. -/
def py_true_div (a b : ℚ) : Option ℚ :=
  if b = 0 then none else some (a / b)

/-- The computed sleep duration of one loop iteration (line 193). -/
def loop_sleep_seconds (cfg : PyConfig) : Option ℚ :=
  py_true_div 1 ((cfg.polling_rate.getD 60 : Int) : ℚ)

/-- A step of the discovery loop of `start` (lines 212-228), as observed
from outside: a `detect_gamepad` attempt, the 2-second wait, or entering
the active session (`run_gamepad_loop`). -/
inductive StartStep where
  | detectAttempt
  | waitBackoff
  | enterActive
deriving DecidableEq

/-- The controller run state of spec section 3. -/
inductive RunPhase where
  | discovering
  | active
  | stopped
deriving DecidableEq

/-- Trace of the discovery loop of `start` (lines 216-228), driven by the
outcomes of successive `detect_gamepad` calls (`true` = a gamepad was
found).  On success the loop enters `run_gamepad_loop`, which returns only
once `self.running` is false, so the loop ends there; on failure it
prints, sleeps 2 seconds, and then breaks if
`config.get("auto_restart", True)` is falsy, else iterates. -/
def start_trace (cfg : PyConfig) : List Bool → List StartStep
  | [] => []
  | found :: rest =>
      if found then [StartStep.detectAttempt, StartStep.enterActive]
      else
        StartStep.detectAttempt :: StartStep.waitBackoff ::
          (if cfg.auto_restart.getD true then start_trace cfg rest else [])

/-- The phase the controller is left in after consuming the given
discovery outcomes. -/
def start_final (cfg : PyConfig) : List Bool → RunPhase
  | [] => RunPhase.discovering
  | found :: rest =>
      if found then RunPhase.active
      else
        if cfg.auto_restart.getD true then start_final cfg rest
        else RunPhase.stopped

/-- The config of claim C1: `{"A": "space"}` with threshold 0.5. -/
def c1_config : PyConfig :=
  { button_mappings := some [("A", "space")],
    trigger_threshold := some (1/2), polling_rate := none,
    auto_restart := none }

/-- The event sequence of claim C1. -/
def c1_events : List RawEvent :=
  [RawEvent.buttonDown 0, RawEvent.buttonDown 0, RawEvent.buttonUp 0,
   RawEvent.buttonDown 0]

end GamepadMapper

namespace GamepadMapper

/-! ### Helper lemmas about the dictionary model and the event loop -/

theorem dictMem_cons {α : Type} (a : String × α) (m : List (String × α))
    (k : String) : dictMem (a :: m) k = ((a.1 == k) || dictMem m k) := by
  simp [dictMem, List.any]

theorem dictMem_insert_self {α : Type} (m : List (String × α)) (k : String)
    (v : α) : dictMem (dictInsert m k v) k = true := by
  induction m with
  | nil => simp [dictInsert, dictMem]
  | cons a rest ih =>
      by_cases h : a.1 = k
      · simp [dictInsert, h, dictMem]
      · simp only [dictInsert]
        rw [if_neg h, dictMem_cons, ih, Bool.or_true]

theorem dictMem_insert_of_mem {α : Type} (m : List (String × α))
    (k k' : String) (v : α) (h : dictMem m k = true) :
    dictMem (dictInsert m k' v) k = true := by
  induction m with
  | nil => simp [dictMem] at h
  | cons a rest ih =>
      rw [dictMem_cons] at h
      by_cases hk : a.1 = k'
      · simp only [dictInsert]
        rw [if_pos hk, dictMem_cons]
        rcases Bool.or_eq_true_iff.mp h with h1 | h1
        · have hak : a.1 = k := by simpa using h1
          have hkk : k' = k := hk.symm.trans hak
          simp [hkk]
        · rw [h1, Bool.or_true]
      · simp only [dictInsert]
        rw [if_neg hk, dictMem_cons]
        rcases Bool.or_eq_true_iff.mp h with h1 | h1
        · rw [h1, Bool.true_or]
        · rw [ih h1, Bool.or_true]

theorem button_states_process_event (cfg : PyConfig) (s : LoopState)
    (e : RawEvent) (name : String)
    (h : dictMem s.button_states name = true) :
    dictMem (process_event cfg s e).1.button_states name = true := by
  cases e with
  | buttonDown id =>
      cases hga : get_button_name id with
      | none => simpa [process_event, hga] using h
      | some n =>
          by_cases hm : dictMem s.button_states n
          · simpa [process_event, hga, hm] using h
          · simpa [process_event, hga, hm] using
              dictMem_insert_of_mem s.button_states name n true h
  | buttonUp id =>
      cases hga : get_button_name id with
      | none => simpa [process_event, hga] using h
      | some n =>
          simpa [process_event, hga] using
            dictMem_insert_of_mem s.button_states name n false h
  | axisMotion axis v =>
      simp only [process_event]
      split_ifs <;> simp [h]

theorem button_states_process_events (cfg : PyConfig) (s : LoopState)
    (evs : List RawEvent) (name : String)
    (h : dictMem s.button_states name = true) :
    dictMem (process_events cfg s evs).1.button_states name = true := by
  induction evs generalizing s with
  | nil => simpa [process_events] using h
  | cons e es ih =>
      simp only [process_events]
      exact ih _ (button_states_process_event cfg s e name h)

theorem process_event_down_of_mem (cfg : PyConfig) (s : LoopState)
    (id : Nat) (name : String) (h1 : get_button_name id = some name)
    (h2 : dictMem s.button_states name = true) :
    (process_event cfg s (RawEvent.buttonDown id)).2 = [] := by
  simp [process_event, h1, h2]

end GamepadMapper

namespace GamepadMapper

theorem axis2_above_of_false (cfg : PyConfig) (s : LoopState) (v : ℚ)
    (h : |v| > cfg.trigger_threshold.getD (1/2))
    (hl : s.left_trigger = false) :
    process_event cfg s (RawEvent.axisMotion 2 v) =
      ({ s with left_trigger := true },
       handle_button_press cfg "LEFT_TRIGGER") := by
  have h1 : cfg.trigger_threshold.getD 2⁻¹ < |v| := by simpa using h
  simp [process_event, h1, hl]

theorem axis2_above_of_true (cfg : PyConfig) (s : LoopState) (v : ℚ)
    (h : |v| > cfg.trigger_threshold.getD (1/2))
    (hl : s.left_trigger = true) :
    process_event cfg s (RawEvent.axisMotion 2 v) = (s, []) := by
  have h1 : cfg.trigger_threshold.getD 2⁻¹ < |v| := by simpa using h
  simp [process_event, h1, hl]

theorem axis2_below (cfg : PyConfig) (s : LoopState) (v : ℚ)
    (h : |v| ≤ cfg.trigger_threshold.getD (1/2)) :
    process_event cfg s (RawEvent.axisMotion 2 v) =
      ({ s with left_trigger := false }, []) := by
  have h1 : ¬ (cfg.trigger_threshold.getD 2⁻¹ < |v|) := by
    simpa using not_lt.mpr h
  simp [process_event, h1]

theorem axis2_sustained (cfg : PyConfig) (s : LoopState) (vs : List ℚ)
    (hall : ∀ v ∈ vs, |v| > cfg.trigger_threshold.getD (1/2))
    (hl : s.left_trigger = true) :
    process_events cfg s (vs.map (RawEvent.axisMotion 2)) = (s, []) := by
  induction vs with
  | nil => simp [process_events]
  | cons v rest ih =>
      simp only [List.map_cons, process_events]
      rw [axis2_above_of_true cfg s v (hall v (by simp)) hl]
      rw [ih (fun w hw => hall w (by simp [hw]))]
      simp

theorem axis2_first_emits (cfg : PyConfig) (s : LoopState) (vs : List ℚ)
    (hne : vs ≠ [])
    (hall : ∀ v ∈ vs, |v| > cfg.trigger_threshold.getD (1/2))
    (hl : s.left_trigger = false) :
    (process_events cfg s (vs.map (RawEvent.axisMotion 2))).2 =
      handle_button_press cfg "LEFT_TRIGGER" := by
  cases vs with
  | nil => exact absurd rfl hne
  | cons v rest =>
      simp only [List.map_cons, process_events]
      rw [axis2_above_of_false cfg s v (hall v (by simp)) hl]
      rw [axis2_sustained cfg _ rest (fun w hw => hall w (by simp [hw]))
            (by simp)]
      simp

theorem axis3_above_of_false (cfg : PyConfig) (s : LoopState) (v : ℚ)
    (h : |v| > cfg.trigger_threshold.getD (1/2))
    (hr : s.right_trigger = false) :
    process_event cfg s (RawEvent.axisMotion 3 v) =
      ({ s with right_trigger := true },
       handle_button_press cfg "RIGHT_TRIGGER") := by
  have h1 : cfg.trigger_threshold.getD 2⁻¹ < |v| := by simpa using h
  simp [process_event, h1, hr]

theorem axis3_above_of_true (cfg : PyConfig) (s : LoopState) (v : ℚ)
    (h : |v| > cfg.trigger_threshold.getD (1/2))
    (hr : s.right_trigger = true) :
    process_event cfg s (RawEvent.axisMotion 3 v) = (s, []) := by
  have h1 : cfg.trigger_threshold.getD 2⁻¹ < |v| := by simpa using h
  simp [process_event, h1, hr]

theorem axis3_below (cfg : PyConfig) (s : LoopState) (v : ℚ)
    (h : |v| ≤ cfg.trigger_threshold.getD (1/2)) :
    process_event cfg s (RawEvent.axisMotion 3 v) =
      ({ s with right_trigger := false }, []) := by
  have h1 : ¬ (cfg.trigger_threshold.getD 2⁻¹ < |v|) := by
    simpa using not_lt.mpr h
  simp [process_event, h1]

theorem axis3_sustained (cfg : PyConfig) (s : LoopState) (vs : List ℚ)
    (hall : ∀ v ∈ vs, |v| > cfg.trigger_threshold.getD (1/2))
    (hr : s.right_trigger = true) :
    process_events cfg s (vs.map (RawEvent.axisMotion 3)) = (s, []) := by
  induction vs with
  | nil => simp [process_events]
  | cons v rest ih =>
      simp only [List.map_cons, process_events]
      rw [axis3_above_of_true cfg s v (hall v (by simp)) hr]
      rw [ih (fun w hw => hall w (by simp [hw]))]
      simp

theorem axis3_first_emits (cfg : PyConfig) (s : LoopState) (vs : List ℚ)
    (hne : vs ≠ [])
    (hall : ∀ v ∈ vs, |v| > cfg.trigger_threshold.getD (1/2))
    (hr : s.right_trigger = false) :
    (process_events cfg s (vs.map (RawEvent.axisMotion 3))).2 =
      handle_button_press cfg "RIGHT_TRIGGER" := by
  cases vs with
  | nil => exact absurd rfl hne
  | cons v rest =>
      simp only [List.map_cons, process_events]
      rw [axis3_above_of_false cfg s v (hall v (by simp)) hr]
      rw [axis3_sustained cfg _ rest (fun w hw => hall w (by simp [hw]))
            (by simp)]
      simp


theorem axis0_pos (cfg : PyConfig) (s : LoopState) (v : ℚ)
    (h : v > 1/2) :
    process_event cfg s (RawEvent.axisMotion 0 v) =
      (s, handle_button_press cfg "DPAD_RIGHT") := by
  have h1 : (2⁻¹ : ℚ) < v := by simpa using h
  have habs : (2⁻¹ : ℚ) < |v| := lt_of_lt_of_le h1 (le_abs_self v)
  simp [process_event, h1, habs]

theorem axis0_neg (cfg : PyConfig) (s : LoopState) (v : ℚ)
    (h : v < -(1/2)) :
    process_event cfg s (RawEvent.axisMotion 0 v) =
      (s, handle_button_press cfg "DPAD_LEFT") := by
  have h1 : v < -(2⁻¹ : ℚ) := by simpa using h
  have h2 : ¬ ((2⁻¹ : ℚ) < v) := by
    rw [not_lt]
    calc v ≤ -(2⁻¹ : ℚ) := le_of_lt h1
    _ ≤ 2⁻¹ := by norm_num
  have habs : (2⁻¹ : ℚ) < |v| :=
    lt_of_lt_of_le (by linarith : (2⁻¹ : ℚ) < -v) (neg_le_abs v)
  simp [process_event, habs, h2, h1]

theorem axis1_pos (cfg : PyConfig) (s : LoopState) (v : ℚ)
    (h : v > 1/2) :
    process_event cfg s (RawEvent.axisMotion 1 v) =
      (s, handle_button_press cfg "DPAD_DOWN") := by
  have h1 : (2⁻¹ : ℚ) < v := by simpa using h
  have habs : (2⁻¹ : ℚ) < |v| := lt_of_lt_of_le h1 (le_abs_self v)
  simp [process_event, h1, habs]

theorem axis1_neg (cfg : PyConfig) (s : LoopState) (v : ℚ)
    (h : v < -(1/2)) :
    process_event cfg s (RawEvent.axisMotion 1 v) =
      (s, handle_button_press cfg "DPAD_UP") := by
  have h1 : v < -(2⁻¹ : ℚ) := by simpa using h
  have h2 : ¬ ((2⁻¹ : ℚ) < v) := by
    rw [not_lt]
    calc v ≤ -(2⁻¹ : ℚ) := le_of_lt h1
    _ ≤ 2⁻¹ := by norm_num
  have habs : (2⁻¹ : ℚ) < |v| :=
    lt_of_lt_of_le (by linarith : (2⁻¹ : ℚ) < -v) (neg_le_abs v)
  simp [process_event, habs, h2, h1]

end GamepadMapper

namespace GamepadMapper

theorem process_events_nil (cfg : PyConfig) (s : LoopState) :
    process_events cfg s [] = (s, []) := rfl

theorem process_events_cons (cfg : PyConfig) (s : LoopState) (e : RawEvent)
    (es : List RawEvent) :
    process_events cfg s (e :: es) =
      ((process_events cfg (process_event cfg s e).1 es).1,
       (process_event cfg s e).2 ++
         (process_events cfg (process_event cfg s e).1 es).2) := rfl

theorem abs_above_default_threshold (q : ℚ) (h0 : 0 ≤ q) (hq : 1/2 < q) :
    |q| > default_config.trigger_threshold.getD (1/2) := by
  rw [abs_of_nonneg h0]
  simpa [default_config] using hq

/-- Config of the C7 witness: `auto_restart` set to false. -/
def c7_cfg_false : PyConfig :=
  { button_mappings := none, trigger_threshold := none,
    polling_rate := none, auto_restart := some false }

/-- Config of the C7 witness: `auto_restart` set to true. -/
def c7_cfg_true : PyConfig :=
  { button_mappings := none, trigger_threshold := none,
    polling_rate := none, auto_restart := some true }

/-- Config of the C4 witness: trigger_threshold deliberately 0.99 to show
the D-pad axes use the fixed 0.5 threshold instead. -/
def c4_cfg : PyConfig :=
  { button_mappings := some
      [("DPAD_UP", "up"), ("DPAD_DOWN", "down"), ("DPAD_LEFT", "left"),
       ("DPAD_RIGHT", "right")],
    trigger_threshold := some (99/100), polling_rate := none,
    auto_restart := none }

/-- Claim C1, evaluation of the code at the claimed scenario: with config
`{"A": "space"}`, the sequence ButtonDown(0), ButtonDown(0), ButtonUp(0),
ButtonDown(0) from a fresh session state dispatches exactly ONE "space"
press, not the two the claim states: the up handler stores `False` under
the button's key without removing it, and the down handler tests key
membership, so the fourth event emits nothing. -/
theorem c1_duplicate_down_code_eval :
    (process_events c1_config freshLoopState c1_events).2 = [("A", "space")] ∧
    (process_events c1_config freshLoopState c1_events).2.length = 1 := by
  decide

/-- Claim C2, counterexample: when the press call fails, `press_key`
attempts only the press; the release call on the injected key is not
performed (the `except` handler catches the error raised by the press,
before the release line runs). -/
theorem c2_release_skipped_counterexample :
    press_key_calls true "space" = [KbCall.pressCall (PyKey.char " ")] ∧
    KbCall.releaseCall (get_key_from_string "space") ∉
      press_key_calls true "space" := by
  decide

/-- Claim C2 as amended: the release call is attempted exactly when the
press call succeeds; after a failed press the handler skips both the hold
and the release, so the key can be left logically held. -/
theorem c2_release_iff_press_succeeds (press_fails : Bool)
    (key_string : String) :
    (KbCall.releaseCall (get_key_from_string key_string) ∈
      press_key_calls press_fails key_string) ↔ press_fails = false := by
  cases press_fails <;> simp [press_key_calls]

/-- Claim C3: for the trigger axes 2 and 3 an action is emitted only on
the transition from below-threshold to above-threshold: an
above-threshold event in the below state emits once and moves to the
above state, any run of above-threshold events in the above state emits
nothing, a below-threshold event resets the state without emitting —
each proved for both the left (axis 2) and right (axis 3) trigger — and
the scenario 0.6, 0.7, 0.3, 0.6 on axis 2 with threshold 0.5 yields
exactly two LEFT_TRIGGER dispatches. -/
theorem c3_trigger_edge_emission :
    (∀ (cfg : PyConfig) (s : LoopState) (v : ℚ),
        |v| > cfg.trigger_threshold.getD (1/2) → s.left_trigger = false →
        process_event cfg s (RawEvent.axisMotion 2 v) =
          ({ s with left_trigger := true },
           handle_button_press cfg "LEFT_TRIGGER")) ∧
    (∀ (cfg : PyConfig) (s : LoopState) (v : ℚ),
        |v| > cfg.trigger_threshold.getD (1/2) → s.right_trigger = false →
        process_event cfg s (RawEvent.axisMotion 3 v) =
          ({ s with right_trigger := true },
           handle_button_press cfg "RIGHT_TRIGGER")) ∧
    (∀ (cfg : PyConfig) (s : LoopState) (vs : List ℚ),
        (∀ v ∈ vs, |v| > cfg.trigger_threshold.getD (1/2)) →
        s.left_trigger = true →
        process_events cfg s (vs.map (RawEvent.axisMotion 2)) = (s, [])) ∧
    (∀ (cfg : PyConfig) (s : LoopState) (vs : List ℚ),
        (∀ v ∈ vs, |v| > cfg.trigger_threshold.getD (1/2)) →
        s.right_trigger = true →
        process_events cfg s (vs.map (RawEvent.axisMotion 3)) = (s, [])) ∧
    (∀ (cfg : PyConfig) (s : LoopState) (vs : List ℚ), vs ≠ [] →
        (∀ v ∈ vs, |v| > cfg.trigger_threshold.getD (1/2)) →
        s.left_trigger = false →
        (process_events cfg s (vs.map (RawEvent.axisMotion 2))).2 =
          handle_button_press cfg "LEFT_TRIGGER") ∧
    (∀ (cfg : PyConfig) (s : LoopState) (vs : List ℚ), vs ≠ [] →
        (∀ v ∈ vs, |v| > cfg.trigger_threshold.getD (1/2)) →
        s.right_trigger = false →
        (process_events cfg s (vs.map (RawEvent.axisMotion 3))).2 =
          handle_button_press cfg "RIGHT_TRIGGER") ∧
    (∀ (cfg : PyConfig) (s : LoopState) (v : ℚ),
        |v| ≤ cfg.trigger_threshold.getD (1/2) →
        process_event cfg s (RawEvent.axisMotion 2 v) =
          ({ s with left_trigger := false }, [])) ∧
    (∀ (cfg : PyConfig) (s : LoopState) (v : ℚ),
        |v| ≤ cfg.trigger_threshold.getD (1/2) →
        process_event cfg s (RawEvent.axisMotion 3 v) =
          ({ s with right_trigger := false }, [])) ∧
    (process_events default_config freshLoopState
        [RawEvent.axisMotion 2 (6/10), RawEvent.axisMotion 2 (7/10),
         RawEvent.axisMotion 2 (3/10), RawEvent.axisMotion 2 (6/10)]).2 =
      [("LEFT_TRIGGER", "ctrl"), ("LEFT_TRIGGER", "ctrl")] := by
  refine ⟨axis2_above_of_false, axis3_above_of_false, axis2_sustained,
    axis3_sustained, axis2_first_emits, axis3_first_emits, axis2_below,
    axis3_below, ?_⟩
  have hbelow : |(3/10 : ℚ)| ≤ default_config.trigger_threshold.getD (1/2) := by
    rw [abs_of_nonneg (by norm_num : (0:ℚ) ≤ 3/10)]
    simp only [default_config, Option.getD_some]
    norm_num
  rw [process_events_cons,
      axis2_above_of_false default_config freshLoopState (6/10)
        (abs_above_default_threshold _ (by norm_num) (by norm_num)) rfl]
  rw [process_events_cons,
      axis2_above_of_true default_config _ (7/10)
        (abs_above_default_threshold _ (by norm_num) (by norm_num)) rfl]
  rw [process_events_cons, axis2_below default_config _ (3/10) hbelow]
  rw [process_events_cons,
      axis2_above_of_false default_config _ (6/10)
        (abs_above_default_threshold _ (by norm_num) (by norm_num)) rfl]
  rfl

/-- Witness for C3 at concrete inputs (default config, threshold 0.5),
exercising both the left (axis 2) and right (axis 3) trigger cases. -/
theorem c3_trigger_edge_emission_witness :
    process_event default_config freshLoopState
        (RawEvent.axisMotion 2 (6/10)) =
      ({ freshLoopState with left_trigger := true },
       [("LEFT_TRIGGER", "ctrl")]) ∧
    process_event default_config freshLoopState
        (RawEvent.axisMotion 3 (6/10)) =
      ({ freshLoopState with right_trigger := true },
       [("RIGHT_TRIGGER", "shift")]) ∧
    process_events default_config { freshLoopState with left_trigger := true }
        ([(7/10 : ℚ)].map (RawEvent.axisMotion 2)) =
      ({ freshLoopState with left_trigger := true }, []) ∧
    process_events default_config { freshLoopState with right_trigger := true }
        ([(7/10 : ℚ)].map (RawEvent.axisMotion 3)) =
      ({ freshLoopState with right_trigger := true }, []) ∧
    (process_events default_config freshLoopState
        ([(6/10 : ℚ), 7/10].map (RawEvent.axisMotion 2))).2 =
      [("LEFT_TRIGGER", "ctrl")] ∧
    (process_events default_config freshLoopState
        ([(6/10 : ℚ), 7/10].map (RawEvent.axisMotion 3))).2 =
      [("RIGHT_TRIGGER", "shift")] ∧
    process_event default_config { freshLoopState with left_trigger := true }
        (RawEvent.axisMotion 2 (3/10)) =
      ({ freshLoopState with left_trigger := false }, []) ∧
    process_event default_config { freshLoopState with right_trigger := true }
        (RawEvent.axisMotion 3 (3/10)) =
      ({ freshLoopState with right_trigger := false }, []) := by
  have habove : ∀ q : ℚ, 0 ≤ q → 1/2 < q →
      |q| > default_config.trigger_threshold.getD (1/2) := by
    intro q h0 hq
    rw [abs_of_nonneg h0]
    simpa [default_config] using hq
  have hbelow : |(3/10 : ℚ)| ≤ default_config.trigger_threshold.getD (1/2) := by
    rw [abs_of_nonneg (by norm_num : (0:ℚ) ≤ 3/10)]
    simp only [default_config, Option.getD_some]
    norm_num
  have hpair : ∀ v ∈ [(6/10 : ℚ), 7/10],
      |v| > default_config.trigger_threshold.getD (1/2) := by
    intro v hv
    rcases List.mem_pair.mp hv with h | h <;> subst h <;>
      exact habove _ (by norm_num) (by norm_num)
  have hsingle : ∀ v ∈ [(7/10 : ℚ)],
      |v| > default_config.trigger_threshold.getD (1/2) := by
    intro v hv
    rw [List.mem_singleton] at hv
    subst hv
    exact habove _ (by norm_num) (by norm_num)
  refine ⟨?_, ?_, ?_, ?_, ?_, ?_, ?_, ?_⟩
  · rw [c3_trigger_edge_emission.1 default_config freshLoopState (6/10)
        (habove _ (by norm_num) (by norm_num)) rfl]
    rfl
  · rw [c3_trigger_edge_emission.2.1 default_config freshLoopState (6/10)
        (habove _ (by norm_num) (by norm_num)) rfl]
    rfl
  · rw [c3_trigger_edge_emission.2.2.1 default_config
        { freshLoopState with left_trigger := true } [(7/10 : ℚ)]
        hsingle rfl]
  · rw [c3_trigger_edge_emission.2.2.2.1 default_config
        { freshLoopState with right_trigger := true } [(7/10 : ℚ)]
        hsingle rfl]
  · rw [c3_trigger_edge_emission.2.2.2.2.1 default_config freshLoopState
        [(6/10 : ℚ), 7/10] (by decide) hpair rfl]
    rfl
  · rw [c3_trigger_edge_emission.2.2.2.2.2.1 default_config freshLoopState
        [(6/10 : ℚ), 7/10] (by decide) hpair rfl]
    rfl
  · rw [c3_trigger_edge_emission.2.2.2.2.2.2.1 default_config
        { freshLoopState with left_trigger := true } (3/10) hbelow]
  · rw [c3_trigger_edge_emission.2.2.2.2.2.2.2.1 default_config
        { freshLoopState with right_trigger := true } (3/10) hbelow]

/-- Claim C4: D-pad axes 0 and 1 fire the corresponding DPAD action on
every event whose value is past the fixed 0.5 threshold (axis 0: above
gives DPAD_RIGHT, below -0.5 gives DPAD_LEFT; axis 1: DPAD_DOWN resp.
DPAD_UP), leaving the loop state unchanged, so repeated qualifying events
each emit, for every config whatever its trigger_threshold; the scenario
of two AxisMotion(0, 0.9) events under the default config yields exactly
two DPAD_RIGHT dispatches. -/
theorem c4_dpad_every_qualifying_event :
    (∀ (cfg : PyConfig) (s : LoopState) (v : ℚ), v > 1/2 →
        process_event cfg s (RawEvent.axisMotion 0 v) =
          (s, handle_button_press cfg "DPAD_RIGHT")) ∧
    (∀ (cfg : PyConfig) (s : LoopState) (v : ℚ), v < -(1/2) →
        process_event cfg s (RawEvent.axisMotion 0 v) =
          (s, handle_button_press cfg "DPAD_LEFT")) ∧
    (∀ (cfg : PyConfig) (s : LoopState) (v : ℚ), v > 1/2 →
        process_event cfg s (RawEvent.axisMotion 1 v) =
          (s, handle_button_press cfg "DPAD_DOWN")) ∧
    (∀ (cfg : PyConfig) (s : LoopState) (v : ℚ), v < -(1/2) →
        process_event cfg s (RawEvent.axisMotion 1 v) =
          (s, handle_button_press cfg "DPAD_UP")) ∧
    (process_events default_config freshLoopState
        [RawEvent.axisMotion 0 (9/10), RawEvent.axisMotion 0 (9/10)]).2 =
      [("DPAD_RIGHT", "right"), ("DPAD_RIGHT", "right")] := by
  refine ⟨axis0_pos, axis0_neg, axis1_pos, axis1_neg, ?_⟩
  rw [process_events_cons,
      axis0_pos default_config freshLoopState (9/10) (by norm_num)]
  rw [process_events_cons,
      axis0_pos default_config freshLoopState (9/10) (by norm_num)]
  rfl

/-- Witness for C4 at concrete inputs; the config used sets
trigger_threshold to 0.99, yet value 0.6 on the D-pad axes still fires
(fixed 0.5 threshold, independent of the configured one). -/
theorem c4_dpad_every_qualifying_event_witness :
    process_event c4_cfg freshLoopState (RawEvent.axisMotion 0 (6/10)) =
      (freshLoopState, [("DPAD_RIGHT", "right")]) ∧
    process_event c4_cfg freshLoopState (RawEvent.axisMotion 0 (-(6/10))) =
      (freshLoopState, [("DPAD_LEFT", "left")]) ∧
    process_event c4_cfg freshLoopState (RawEvent.axisMotion 1 (6/10)) =
      (freshLoopState, [("DPAD_DOWN", "down")]) ∧
    process_event c4_cfg freshLoopState (RawEvent.axisMotion 1 (-(6/10))) =
      (freshLoopState, [("DPAD_UP", "up")]) := by
  refine ⟨?_, ?_, ?_, ?_⟩
  · rw [c4_dpad_every_qualifying_event.1 c4_cfg freshLoopState (6/10)
        (by norm_num)]
    rfl
  · rw [c4_dpad_every_qualifying_event.2.1 c4_cfg freshLoopState (-(6/10))
        (by norm_num)]
    rfl
  · rw [c4_dpad_every_qualifying_event.2.2.1 c4_cfg freshLoopState (6/10)
        (by norm_num)]
    rfl
  · rw [c4_dpad_every_qualifying_event.2.2.2.1 c4_cfg freshLoopState
        (-(6/10)) (by norm_num)]
    rfl

end GamepadMapper

namespace GamepadMapper

/-- Claim C5: within one session, once a button's first down event has
been processed the button's name is a key of `button_states` (first
conjunct, covering both the fresh-insert and already-present cases), key
membership survives every later event (the up handler stores `False`
under the key without removing it), and therefore a later down event for
the same button, after any intervening event sequence, emits nothing. -/
theorem c5_button_fires_at_most_once_per_session :
    (∀ (cfg : PyConfig) (s : LoopState) (id : Nat) (name : String),
        get_button_name id = some name →
        dictMem (process_event cfg s (RawEvent.buttonDown id)).1.button_states
          name = true) ∧
    (∀ (cfg : PyConfig) (s : LoopState) (evs : List RawEvent) (id : Nat)
        (name : String),
        get_button_name id = some name →
        dictMem s.button_states name = true →
        (process_event cfg (process_events cfg s evs).1
            (RawEvent.buttonDown id)).2 = []) := by
  constructor
  · intro cfg s id name h
    by_cases hm : dictMem s.button_states name = true
    · simp [process_event, h, hm]
    · rw [Bool.not_eq_true] at hm
      simpa [process_event, h, hm] using
        dictMem_insert_self s.button_states name true
  · intro cfg s evs id name h1 h2
    exact process_event_down_of_mem cfg _ id name h1
      (button_states_process_events cfg s evs name h2)

/-- Witness for C5: after the first down of button A is processed, "A" is
a key of the state map; and from a state holding "A", even after an
intervening ButtonUp(0), a further ButtonDown(0) emits nothing. -/
theorem c5_button_fires_at_most_once_per_session_witness :
    dictMem (process_event c1_config freshLoopState
        (RawEvent.buttonDown 0)).1.button_states "A" = true ∧
    (process_event c1_config
        (process_events c1_config
          { button_states := [("A", true)], left_trigger := false,
            right_trigger := false } [RawEvent.buttonUp 0]).1
        (RawEvent.buttonDown 0)).2 = [] :=
  ⟨c5_button_fires_at_most_once_per_session.1 c1_config freshLoopState 0 "A"
     (by decide),
   c5_button_fires_at_most_once_per_session.2 c1_config
     { button_states := [("A", true)], left_trigger := false,
       right_trigger := false } [RawEvent.buttonUp 0] 0 "A"
     (by decide) (by decide)⟩

/-- Claim C6: `load_config` on an absent file returns the built-in
default configuration (the enumerated mapping, threshold 0.5, polling
rate 60, auto_restart true) after persisting it via `save_config`; on a
malformed file it returns the empty dict and reports an error instead of
raising. -/
theorem c6_load_config_default_and_malformed :
    load_config ConfigFile.absent =
      (default_config, ConfigFile.stored default_config, false) ∧
    default_config.button_mappings = some
      [("A", "space"), ("B", "escape"), ("X", "return"), ("Y", "tab"),
       ("START", "f11"), ("SELECT", "f12"), ("LEFT_TRIGGER", "ctrl"),
       ("RIGHT_TRIGGER", "shift"), ("DPAD_UP", "up"), ("DPAD_DOWN", "down"),
       ("DPAD_LEFT", "left"), ("DPAD_RIGHT", "right")] ∧
    default_config.trigger_threshold = some (1/2) ∧
    default_config.polling_rate = some 60 ∧
    default_config.auto_restart = some true ∧
    load_config ConfigFile.malformed =
      (empty_config, ConfigFile.malformed, true) ∧
    empty_config.button_mappings = none :=
  ⟨rfl, rfl, rfl, rfl, rfl, rfl, rfl⟩

/-- Claim C7: when `detect_gamepad` finds nothing and the configured
auto_restart flag is false, the loop performs exactly one discovery
attempt (a wait, then the break) and ends Stopped, regardless of any
further would-be discovery outcomes; when auto_restart is truthy, the
loop waits the fixed backoff and retries discovery. -/
theorem c7_no_retry_when_auto_restart_false :
    (∀ (cfg : PyConfig) (ds : List Bool), cfg.auto_restart = some false →
        start_trace cfg (false :: ds) =
          [StartStep.detectAttempt, StartStep.waitBackoff] ∧
        (start_trace cfg (false :: ds)).count StartStep.detectAttempt = 1 ∧
        start_final cfg (false :: ds) = RunPhase.stopped) ∧
    (∀ (cfg : PyConfig) (ds : List Bool), cfg.auto_restart.getD true = true →
        start_trace cfg (false :: ds) =
          StartStep.detectAttempt :: StartStep.waitBackoff ::
            start_trace cfg ds) ∧
    (∀ cfg : PyConfig, cfg.auto_restart = some true →
        start_trace cfg [false, false] =
          [StartStep.detectAttempt, StartStep.waitBackoff,
           StartStep.detectAttempt, StartStep.waitBackoff]) := by
  refine ⟨?_, ?_, ?_⟩
  · intro cfg ds h
    have ht : start_trace cfg (false :: ds) =
        [StartStep.detectAttempt, StartStep.waitBackoff] := by
      simp [start_trace, h]
    refine ⟨ht, ?_, ?_⟩
    · rw [ht]
      decide
    · simp [start_final, h]
  · intro cfg ds h
    simp [start_trace, h]
  · intro cfg h
    simp [start_trace, h]

/-- Witness for C7 at concrete configs. -/
theorem c7_no_retry_when_auto_restart_false_witness :
    start_trace c7_cfg_false [false] =
      [StartStep.detectAttempt, StartStep.waitBackoff] ∧
    (start_trace c7_cfg_false [false]).count StartStep.detectAttempt = 1 ∧
    start_final c7_cfg_false [false] = RunPhase.stopped ∧
    start_trace c7_cfg_true [false, false] =
      [StartStep.detectAttempt, StartStep.waitBackoff,
       StartStep.detectAttempt, StartStep.waitBackoff] :=
  ⟨(c7_no_retry_when_auto_restart_false.1 c7_cfg_false [] rfl).1,
   (c7_no_retry_when_auto_restart_false.1 c7_cfg_false [] rfl).2.1,
   (c7_no_retry_when_auto_restart_false.1 c7_cfg_false [] rfl).2.2,
   c7_no_retry_when_auto_restart_false.2.2 c7_cfg_true rfl⟩

/-- Claim C8: saving the built-in default configuration and loading it
back yields the identical config value: save followed by load is the
identity on the default config, whatever the prior file state. -/
theorem c8_save_load_roundtrip :
    ∀ f : ConfigFile,
      (load_config (save_config default_config f)).1 = default_config :=
  fun _ => rfl

/-- Claim C9: a logical button name absent from the configured
button_mappings produces no injection call: `handle_button_press` is a
no-op on it, and a down-edge event for a raw id mapping to it dispatches
nothing. -/
theorem c9_unmapped_button_no_injection (cfg : PyConfig) (name : String)
    (h : dictFind (cfg.button_mappings.getD []) name = none) :
    handle_button_press cfg name = [] ∧
    ∀ (s : LoopState) (id : Nat), get_button_name id = some name →
      (process_event cfg s (RawEvent.buttonDown id)).2 = [] := by
  constructor
  · simp [handle_button_press, h]
  · intro s id hid
    by_cases hm : dictMem s.button_states name = true
    · simp [process_event, hid, hm]
    · rw [Bool.not_eq_true] at hm
      simp [process_event, hid, hm, handle_button_press, h]

/-- Witness for C9: "B" is not mapped in the C1 config, and ButtonDown(1)
(raw id 1 maps to "B") dispatches nothing. -/
theorem c9_unmapped_button_no_injection_witness :
    handle_button_press c1_config "B" = [] ∧
    (process_event c1_config freshLoopState (RawEvent.buttonDown 1)).2 = [] :=
  ⟨(c9_unmapped_button_no_injection c1_config "B" (by decide)).1,
   (c9_unmapped_button_no_injection c1_config "B" (by decide)).2
     freshLoopState 1 (by decide)⟩

/-- Claim C10: the loop sleep is computed as 1.0 divided by
`config.get("polling_rate", 60)` with no validation: an absent key falls
back to 60 and yields 1/60, a present nonzero rate r yields 1/r, and a
present zero rate makes the division undefined (ZeroDivisionError),
i.e. the division is well-defined exactly under the precondition that a
present polling_rate is nonzero. -/
theorem c10_sleep_division_precondition :
    (∀ cfg : PyConfig, cfg.polling_rate = none →
        loop_sleep_seconds cfg = some (1/60)) ∧
    (∀ cfg : PyConfig, cfg.polling_rate = some 0 →
        loop_sleep_seconds cfg = none) ∧
    (∀ (cfg : PyConfig) (r : Int), cfg.polling_rate = some r → r ≠ 0 →
        loop_sleep_seconds cfg = some (1 / (r : ℚ))) := by
  refine ⟨?_, ?_, ?_⟩
  · intro cfg h
    norm_num [loop_sleep_seconds, py_true_div, h]
  · intro cfg h
    simp [loop_sleep_seconds, py_true_div, h]
  · intro cfg r h hr
    have hc : ((r : ℚ)) ≠ 0 := Int.cast_ne_zero.mpr hr
    simp [loop_sleep_seconds, py_true_div, h, hc]

/-- Witness for C10 at concrete configs. -/
theorem c10_sleep_division_precondition_witness :
    loop_sleep_seconds empty_config = some (1/60) ∧
    loop_sleep_seconds
      { button_mappings := none, trigger_threshold := none,
        polling_rate := some 0, auto_restart := none } = none ∧
    loop_sleep_seconds default_config = some (1 / ((60 : Int) : ℚ)) :=
  ⟨c10_sleep_division_precondition.1 empty_config rfl,
   c10_sleep_division_precondition.2.1
     { button_mappings := none, trigger_threshold := none,
       polling_rate := some 0, auto_restart := none } rfl,
   c10_sleep_division_precondition.2.2 default_config 60 rfl (by decide)⟩

end GamepadMapper
